import Mathlib

/-!
Shallow embedding of the OzoneDAO/monitoring-bot repository
(`src/bot.py`, the long-running variant, and `src/send_update.py`, the
single-shot variant) and proofs about it.

Numeric values flowing through the pipeline (GraphQL JSON numbers, parsed
BigInt strings, the results of Python arithmetic) are modelled as exact
rationals `ℚ`; raw 18-decimal token amounts are modelled as `ℤ` (Python
parses them with arbitrary-precision `int`).  The one place where the
binary floating-point semantics of Python's `/` is itself at issue — the
fixed-point conversion `int(s) / (10 ** 18)` — is modelled separately and
exactly, with an explicit IEEE-754 binary64 round-to-nearest-even rounding
function on `ℚ`.
-/

namespace MonitoringBot

/-- A time-series point of the GraphQL response (`{ x y }` objects):
`x` is a timestamp, `y` an optional numeric value (`null` for a bucket
whose value is not yet computed). -/
structure Point where
  x : Int
  y : Option ℚ
deriving DecidableEq

/-- `get_timeseries_values(data, decimals=0)` from `src/send_update.py`:
extract non-null `y` values; when `decimals > 0`, treat `y` as a BigInt
string and divide by `10 ** decimals`. -/
def get_timeseries_values : List Point → Nat → List ℚ
  | [], _ => []
  | p :: rest, decimals =>
    match p.y with
    | none => get_timeseries_values rest decimals
    | some y =>
      (if 0 < decimals then y / 10 ^ decimals else y) :: get_timeseries_values rest decimals

/-- `compute_average(data, decimals=0)` from `src/send_update.py`:
`sum(values) / len(values) if values else None`. -/
def compute_average (data : List Point) (decimals : Nat) : Option ℚ :=
  let values := get_timeseries_values data decimals
  if values = [] then none else some (values.sum / values.length)

/-- `compute_delta(current, data, decimals=0)` from `src/send_update.py`:
delta between the current value and the oldest (= last, the list being
sorted newest-first) value of the time series; `None` when no values
remain or the oldest is zero. -/
def compute_delta (current : ℚ) (data : List Point) (decimals : Nat) :
    Option (ℚ × ℚ) :=
  let values := get_timeseries_values data decimals
  match values.getLast? with
  | none => none
  | some oldest =>
    if oldest = 0 then none
    else some (current - oldest, (current - oldest) / oldest)

/-! ### Python number formatting

`f"{v:,.2f}"`, `f"{v:.2f}"`, `f"{v:,.0f}"` render the value rounded to the
requested number of fraction digits with round-half-to-even, a `-` sign
taken from the sign of the input, and (with `,`) thousands grouping of the
integer part. -/

/-- Round-half-to-even of a rational to an integer (banker's rounding, the
rounding of Python's `format`). -/
def roundHalfEven (q : ℚ) : ℤ :=
  let f := q.floor
  let r := q - f
  if r < 1 / 2 then f
  else if 1 / 2 < r then f + 1
  else if f % 2 = 0 then f else f + 1

/-- The decimal digit character of `d` (for `d < 10`). -/
def digitChar (d : Nat) : Char := Char.ofNat (48 + d)

/-- Decimal digits of `n`, least significant first, with explicit fuel
(any `fuel > n` suffices; structural recursion on the fuel). -/
def natDigitsRevAux : Nat → Nat → List Char
  | 0, _ => []
  | fuel + 1, n =>
    if n < 10 then [digitChar n]
    else digitChar (n % 10) :: natDigitsRevAux fuel (n / 10)

/-- Decimal digits of `n`, least significant first. -/
def natDigitsRev (n : Nat) : List Char := natDigitsRevAux (n + 1) n

/-- Decimal digits of `n`, most significant first. -/
def natDigits (n : Nat) : List Char := (natDigitsRev n).reverse

/-- Insert `','` after every third character of a reversed digit list
(thousands grouping, `","` option of Python's `format`). -/
def group3Rev : List Char → List Char
  | a :: b :: c :: d :: rest => a :: b :: c :: ',' :: group3Rev (d :: rest)
  | l => l

/-- Left-pad a character list with `c` to length `n`. -/
def padLeft (c : Char) (n : Nat) (s : List Char) : List Char :=
  List.replicate (n - s.length) c ++ s

/-- `f"{q:.ndec f}"` / `f"{q:,.ndec f}"`: fixed-point rendering of a
rational with `ndec` fraction digits, round-half-to-even, optional
thousands grouping. -/
def formatFixed (grouped : Bool) (ndec : Nat) (q : ℚ) : String :=
  let scale : Nat := 10 ^ ndec
  let m : Nat := (roundHalfEven (|q| * scale)).toNat
  let ip := m / scale
  let fp := m % scale
  let sign : List Char := if q < 0 then ['-'] else []
  let ipChars := if grouped then (group3Rev (natDigitsRev ip)).reverse else natDigits ip
  let fracChars : List Char := if ndec = 0 then [] else '.' :: padLeft '0' ndec (natDigits fp)
  ⟨sign ++ ipChars ++ fracChars⟩

/-- `format_number(value)` (both variants): `f"{value:,.2f}"`. -/
def format_number (value : ℚ) : String := formatFixed true 2 value

/-- `format_pct(value)` (both variants): `f"{value * 100:.2f}%"`. -/
def format_pct (value : ℚ) : String := formatFixed false 2 (value * 100) ++ "%"

/-- `format_delta(value)` from `src/send_update.py`:
`sign = "+" if value >= 0 else ""` then `f"{sign}{value:,.0f}"`. -/
def format_delta (value : ℚ) : String :=
  (if 0 ≤ value then "+" else "") ++ formatFixed true 0 value

/-- `format_delta_pct(value)` from `src/send_update.py`:
`sign = "+" if value >= 0 else ""` then `f"{sign}{value * 100:.2f}%"`. -/
def format_delta_pct (value : ℚ) : String :=
  (if 0 ≤ value then "+" else "") ++ formatFixed false 2 (value * 100) ++ "%"

/-! ### IEEE-754 binary64 model for the fixed-point conversion

CPython floats are IEEE-754 binary64 values and `int / int`, `float * int`
are correctly rounded (round to nearest, ties to even).  `floatRound q` is
the binary64 value nearest to the rational `q` (normal range; the inputs
at issue are all of magnitude between 1 and 2^64, far from overflow and
subnormals). -/

/-- `2 ^ e` in `ℚ` for an integer exponent. -/
def pow2z (e : ℤ) : ℚ :=
  if 0 ≤ e then ((2 ^ e.toNat : ℕ) : ℚ) else (((2 ^ (-e).toNat : ℕ) : ℚ))⁻¹

/-- `⌊log₂ n⌋` on naturals (0 for `n ≤ 1`), with explicit fuel
(structural recursion; `fuel = n` suffices). -/
def natLog2Aux : Nat → Nat → Nat
  | 0, _ => 0
  | fuel + 1, n => if n < 2 then 0 else natLog2Aux fuel (n / 2) + 1

/-- `⌊log₂ n⌋` on naturals (0 for `n ≤ 1`). -/
def natLog2 (n : Nat) : Nat := natLog2Aux n n

/-- `⌊log₂ q⌋` for a positive rational `q`. -/
def floorLog2 (q : ℚ) : ℤ :=
  if 1 ≤ q then (natLog2 q.floor.toNat : ℤ)
  else
    let r := q⁻¹
    let j := natLog2 r.floor.toNat
    if r = ((2 ^ j : ℕ) : ℚ) then -(j : ℤ) else -((j : ℤ) + 1)

/-- Nearest binary64 value to a positive rational: scale into `[2^52, 2^53)`,
round the significand half-to-even, scale back. -/
def floatRoundPos (q : ℚ) : ℚ :=
  let e := floorLog2 q
  let m := roundHalfEven (q * pow2z (52 - e))
  (m : ℚ) * pow2z (e - 52)

/-- Nearest binary64 value to a rational. -/
def floatRound (q : ℚ) : ℚ :=
  if q = 0 then 0
  else if q < 0 then -floatRoundPos (-q)
  else floatRoundPos q

/-- Python `int()` applied to a float value: truncation toward zero. -/
def pyTrunc (q : ℚ) : ℤ := if q < 0 then -((-q).floor) else q.floor

/-- The code's fixed-point conversion `int(s) / (10 ** 18)`
(`src/bot.py` line 143, `src/send_update.py` lines 106 and 159):
arbitrary-precision integer parse, then Python float division — the
correctly rounded binary64 quotient. -/
def fixed_point_convert (n : ℤ) : ℚ := floatRound ((n : ℚ) / 10 ^ 18)

/-- Reconversion of the converted value through multiplication by `10^18`
and truncation, with the multiplication performed as Python float
multiplication. -/
def round_trip_float (n : ℤ) : ℤ :=
  pyTrunc (floatRound (fixed_point_convert n * 10 ^ 18))

/-- Reconversion of the converted value through exact multiplication by
`10^18` and truncation. -/
def round_trip_exact (n : ℤ) : ℤ :=
  pyTrunc (fixed_point_convert n * 10 ^ 18)

/-- The spec-intended conversion with arbitrary-precision ("integer
parsing") semantics throughout: exact division by `10^18`. -/
def exact_convert (n : ℤ) : ℚ := (n : ℚ) / 10 ^ 18

/-! ### Wall-clock time

`datetime.now()` returns the host's local time, `datetime.utcnow()` the
UTC time; both are modelled as explicit fields of a clock value passed to
the code that reads them. -/

/-- A broken-down date-time, as produced by `datetime.now()` /
`datetime.utcnow()` and consumed by `strftime`. -/
structure DateTime where
  year : Nat
  month : Nat
  day : Nat
  hour : Nat
  minute : Nat
  second : Nat
deriving DecidableEq

/-- The process's view of wall-clock time: the local-time reading
(`datetime.now()`) and the UTC reading (`datetime.utcnow()`). -/
structure Clock where
  localTime : DateTime
  utcTime : DateTime
deriving DecidableEq

/-- Zero-padded decimal rendering of width 2. -/
def pad2 (n : Nat) : List Char := padLeft '0' 2 (natDigits n)

/-- Zero-padded decimal rendering of width 4. -/
def pad4 (n : Nat) : List Char := padLeft '0' 4 (natDigits n)

/-- `strftime("%Y-%m-%d %H:%M:%S")` (`src/bot.py` line 145). -/
def strftimeFull (t : DateTime) : String :=
  ⟨pad4 t.year ++ '-' :: pad2 t.month ++ '-' :: pad2 t.day ++
    ' ' :: pad2 t.hour ++ ':' :: pad2 t.minute ++ ':' :: pad2 t.second⟩

/-- `strftime("%Y-%m-%d %H:%M UTC")` (`src/send_update.py` line 192). -/
def strftimeShort (t : DateTime) : String :=
  ⟨pad4 t.year ++ '-' :: pad2 t.month ++ '-' :: pad2 t.day ++
    ' ' :: pad2 t.hour ++ ':' :: pad2 t.minute ++ ' ' :: ['U', 'T', 'C']⟩

/-! ### Response data model (long-running variant, `src/bot.py`) -/

/-- One entry of the vault's `rewards` array. -/
structure Reward where
  supplyApr : ℚ
  assetSymbol : String
deriving DecidableEq

/-- The `vault` object of the combined query, fields read by `src/bot.py`.
`totalAssets` is the raw 18-decimal fixed-point amount, parsed by
`int(...)`. -/
structure VaultData where
  name : String
  totalAssets : ℤ
  totalAssetsUsd : ℚ
  avgApy : ℚ
  avgNetApy : ℚ
  rewards : List Reward
deriving DecidableEq

/-- The `market.state` sub-object. `liquidityAssets` is a raw 18-decimal
fixed-point amount. -/
structure MarketState where
  utilization : ℚ
  totalLiquidityUsd : ℚ
  liquidityAssets : ℤ
  avgBorrowApy : ℚ
deriving DecidableEq

/-- The `market` object; its `state` sub-object may be `null`. -/
structure MarketData where
  state : Option MarketState
deriving DecidableEq

/-- The `data` object of the GraphQL envelope; `vault` and `market` may
each resolve to `null`. -/
structure RespData where
  vault : Option VaultData
  market : Option MarketData
deriving DecidableEq

/-- The JSON envelope of a 2xx GraphQL response: an optional top-level
`errors` array and an optional `data` object. -/
structure ApiResponse where
  errors : Option (List String)
  data : Option RespData
deriving DecidableEq

/-- `MorphoMonitor.fetch_data` (`src/bot.py` lines 77-95), restricted to a
2xx response body: if a top-level `errors` key is present the method logs
and returns `None`; otherwise it returns `data.get("data", {})` (an empty
object when `data` is missing). -/
def fetch_data (response : ApiResponse) : Option RespData :=
  if response.errors.isSome then none
  else some (response.data.getD ⟨none, none⟩)

/-- The `message_parts` list built from the vault fields
(`src/bot.py` lines 148-159). -/
def vault_parts (vault_data : VaultData) : List String :=
  let total_assets_usds := (vault_data.totalAssets : ℚ) / 10 ^ 18
  let rewards_apy := (vault_data.rewards.map Reward.supplyApr).sum
  ["*Morpho Vault Monitor*",
   "",
   "*" ++ vault_data.name ++ "*",
   "",
   "*Total Deposits:* " ++ format_number total_assets_usds ++ " USDS",
   "",
   "*APY Breakdown:*",
   "  Native APY: " ++ format_pct vault_data.avgApy,
   "  Rewards APY: " ++ format_pct rewards_apy,
   "  *Total APY: " ++ format_pct vault_data.avgNetApy ++ "*"]

/-- The conditional market block (`src/bot.py` lines 162-174): appended
only when `market_data` is truthy and has a truthy `state`. -/
def market_parts : Option MarketData → List String
  | none => []
  | some market_data =>
    match market_data.state with
    | none => []
    | some state =>
      ["",
       "*stUSDS/USDS Market:*",
       "  Utilization: " ++ format_pct state.utilization,
       "  Liquidity: " ++ format_number ((state.liquidityAssets : ℚ) / 10 ^ 18) ++ " USDS",
       "  Borrow Rate: " ++ format_pct state.avgBorrowApy]

/-- `MorphoMonitor.send_update` (`src/bot.py` lines 118-181) up to the
Telegram call: from the result of `fetch_data` and the clock, the list of
message lines, or `None` when the cycle is skipped (no data / no vault
data). -/
def send_update_parts (d : Option RespData) (clock : Clock) : Option (List String) :=
  match d with
  | none => none
  | some data =>
    match data.vault with
    | none => none
    | some vault_data =>
      let timestamp := strftimeFull clock.localTime
      some (vault_parts vault_data ++ market_parts data.market ++
        ["", "_" ++ timestamp ++ "_"])

/-- The delivered message text: `"\n".join(message_parts)`. -/
def send_update_message (d : Option RespData) (clock : Clock) : Option String :=
  (send_update_parts d clock).map (String.intercalate "\n")

/-! ### Process environment and startup (both variants) -/

/-- The environment variables the repository reads. `none` models absence
from the process environment. -/
structure Env where
  telegram_bot_token : Option String
  telegram_chat_id : Option String
  monitoring_interval : Option String
deriving DecidableEq

/-- Python truthiness of `os.getenv` results: `None` and the empty string
are falsy. -/
def truthyStr : Option String → Bool
  | none => false
  | some s => !s.isEmpty

/-- The configuration `MorphoMonitor.__init__` ends up with. -/
structure MonitorConfig where
  bot_token : String
  chat_id : String
  interval : Nat
deriving DecidableEq

/-- `MorphoMonitor.__init__` (`src/bot.py` lines 64-70): reads
`TELEGRAM_BOT_TOKEN`, `TELEGRAM_CHAT_ID` (default `"@machilassab"`) and
`MONITORING_INTERVAL` (default `"60"`, converted with `int(...)`), then
raises `ValueError` when the token is falsy.  The `int` conversion runs
before the token check (line 67 before line 69). -/
def monitor_init (env : Env) : Except String MonitorConfig :=
  let chat_id := env.telegram_chat_id.getD "@machilassab"
  match (env.monitoring_interval.getD "60").toNat? with
  | none => .error "ValueError: invalid literal for int"
  | some interval =>
    if truthyStr env.telegram_bot_token then
      .ok ⟨env.telegram_bot_token.getD "", chat_id, interval⟩
    else
      .error "TELEGRAM_BOT_TOKEN environment variable is required"

/-- `main` of `src/send_update.py`, lines 136-140: reads
`TELEGRAM_BOT_TOKEN` and `TELEGRAM_CHAT_ID` and raises `ValueError` when
either is falsy; no default, no interval. -/
def single_shot_config (env : Env) : Except String (String × String) :=
  if truthyStr env.telegram_bot_token && truthyStr env.telegram_chat_id then
    .ok (env.telegram_bot_token.getD "", env.telegram_chat_id.getD "")
  else
    .error "TELEGRAM_BOT_TOKEN and TELEGRAM_CHAT_ID must be set"

/-! ### Query builder (single-shot variant) -/

/-- The time-window parameters substituted into the historical GraphQL
document by `build_query` (`src/send_update.py` lines 21-72): for each of
the nine historical sub-queries, its alias and its
`(startTimestamp, endTimestamp)` pair, in the order the `%` substitution
fills them in. -/
def build_query_windows (now : ℤ) : List (String × ℤ × ℤ) :=
  let ts_1h := now - 7200
  let ts_12h := now - 43200
  let ts_24h := now - 86400
  [("totalAssets_1h", ts_1h, now),
   ("totalAssets_12h", ts_12h, now),
   ("totalAssets_24h", ts_24h, now),
   ("avgNetApy_1h", ts_1h, now),
   ("avgNetApy_12h", ts_12h, now),
   ("avgNetApy_24h", ts_24h, now),
   ("borrowApy_1h", ts_1h, now),
   ("borrowApy_12h", ts_12h, now),
   ("borrowApy_24h", ts_24h, now)]

/-! ### Response data model and pipeline (single-shot variant,
`src/send_update.py`) -/

/-- The vault's `historicalState` sub-object: six hourly time series. -/
structure HistoricalVault where
  totalAssets_1h : List Point
  totalAssets_12h : List Point
  totalAssets_24h : List Point
  avgNetApy_1h : List Point
  avgNetApy_12h : List Point
  avgNetApy_24h : List Point
deriving DecidableEq

/-- The market's `historicalState` sub-object: three hourly series. -/
structure HistoricalMarket where
  borrowApy_1h : List Point
  borrowApy_12h : List Point
  borrowApy_24h : List Point
deriving DecidableEq

/-- The `vault` object of the historical query, fields read by
`src/send_update.py`. -/
structure VaultDataS where
  name : String
  totalAssets : ℤ
  totalAssetsUsd : ℚ
  avgApy : ℚ
  avgNetApy : ℚ
  rewards : List Reward
  historicalState : HistoricalVault
deriving DecidableEq

/-- The `market` object of the historical query; `state` may be `null`. -/
structure MarketDataS where
  state : Option MarketState
  historicalState : HistoricalMarket
deriving DecidableEq

/-- The `data` object of the historical response. -/
structure RespDataS where
  vault : Option VaultDataS
  market : Option MarketDataS
deriving DecidableEq

/-- The JSON envelope of the historical response. -/
structure ApiResponseS where
  errors : Option (List String)
  data : Option RespDataS
deriving DecidableEq

/-- The inline pattern `format_pct(x) if x else "N/A"` used for the six
historical-average lines (`src/send_update.py` lines 218-220 and
228-230): Python truthiness renders `None` *and* `0.0` as `"N/A"`. -/
def render_avg : Option ℚ → String
  | none => "N/A"
  | some v => if v = 0 then "N/A" else format_pct v

/-- `format_deposit_delta` (`src/send_update.py` lines 195-199). -/
def format_deposit_delta : Option (ℚ × ℚ) → String
  | none => "N/A"
  | some (abs_d, pct_d) =>
    format_delta_pct pct_d ++ " (" ++ format_delta abs_d ++ " USDS)"

/-- The body of the single-shot message (`src/send_update.py` lines
201-232) up to, but not including, the final `_{timestamp}_`. -/
def single_shot_body (vault : VaultDataS) (state : MarketState)
    (market_hist : HistoricalMarket) : String :=
  let total_assets_raw := (vault.totalAssets : ℚ) / 10 ^ 18
  let rewards_apy := (vault.rewards.map Reward.supplyApr).sum
  let liquidity_assets := (state.liquidityAssets : ℚ) / 10 ^ 18
  let vault_hist := vault.historicalState
  let delta_1h := compute_delta total_assets_raw vault_hist.totalAssets_1h 18
  let delta_12h := compute_delta total_assets_raw vault_hist.totalAssets_12h 18
  let delta_24h := compute_delta total_assets_raw vault_hist.totalAssets_24h 18
  let avg_apy_1h := compute_average vault_hist.avgNetApy_1h 0
  let avg_apy_12h := compute_average vault_hist.avgNetApy_12h 0
  let avg_apy_24h := compute_average vault_hist.avgNetApy_24h 0
  let avg_borrow_1h := compute_average market_hist.borrowApy_1h 0
  let avg_borrow_12h := compute_average market_hist.borrowApy_12h 0
  let avg_borrow_24h := compute_average market_hist.borrowApy_24h 0
  "*Morpho Vault Monitor*\n\n*" ++ vault.name ++ "*\n\n*Total Deposits:* " ++
    format_number total_assets_raw ++ " USDS\n\n*Deposit Changes:*\n  1h:  " ++
    format_deposit_delta delta_1h ++ "\n  12h: " ++
    format_deposit_delta delta_12h ++ "\n  24h: " ++
    format_deposit_delta delta_24h ++ "\n\n*APY Breakdown:*\n  Native APY: " ++
    format_pct vault.avgApy ++ "\n  Rewards APY: " ++
    format_pct rewards_apy ++ "\n  *Total APY: " ++
    format_pct vault.avgNetApy ++ "*\n\n*Avg Total APY:*\n  1h:  " ++
    render_avg avg_apy_1h ++ "\n  12h: " ++
    render_avg avg_apy_12h ++ "\n  24h: " ++
    render_avg avg_apy_24h ++ "\n\n*stUSDS/USDS Market:*\n  Utilization: " ++
    format_pct state.utilization ++ "\n  Liquidity: " ++
    format_number liquidity_assets ++ " USDS\n  Borrow Rate: " ++
    format_pct state.avgBorrowApy ++ "\n\n*Avg Borrow Rate:*\n  1h:  " ++
    render_avg avg_borrow_1h ++ "\n  12h: " ++
    render_avg avg_borrow_12h ++ "\n  24h: " ++
    render_avg avg_borrow_24h ++ "\n\n"

/-- `main` of `src/send_update.py`, lines 149-232, from the parsed 2xx
response body to the rendered message: an `errors` key raises; a missing
`data` key raises `KeyError`; a `null` `vault` raises `TypeError` at the
first vault field access; a `null` `market` (or `null` `market.state`)
raises `TypeError` before any market field is read.  On success the full
message string is produced, ending in `_{timestamp}_` with
`timestamp = datetime.utcnow().strftime("%Y-%m-%d %H:%M UTC")`. -/
def single_shot_message (response : ApiResponseS) (clock : Clock) :
    Except String String :=
  if response.errors.isSome then .error "GraphQL errors"
  else
    match response.data with
    | none => .error "KeyError: data"
    | some d =>
      match d.vault with
      | none => .error "TypeError: vault is None"
      | some vault =>
        match d.market with
        | none => .error "TypeError: market is None"
        | some market =>
          match market.state with
          | none => .error "TypeError: state is None"
          | some state =>
            let timestamp := strftimeShort clock.utcTime
            .ok (single_shot_body vault state market.historicalState ++
              ("_" ++ timestamp ++ "_"))

/-! ### Substring tests and concrete inputs -/

/-- Substring test on character lists. -/
def list_contains (pat : List Char) : List Char → Bool
  | [] => pat.isEmpty
  | c :: rest => pat.isPrefixOf (c :: rest) || list_contains pat rest

/-- `pat` occurs as a contiguous substring of `s`. -/
def contains_str (pat s : String) : Bool := list_contains pat.data s.data

/-- The message as the channel renders it: the lightweight-markup
bold/italic markers (`*`, `_`) removed. -/
def strip_markup (s : String) : String :=
  ⟨s.data.filter (fun c => !(c == '*' || c == '_'))⟩

/-- The mock vault of the end-to-end example: `totalAssets` of 1000 tokens
at 18 decimals, `avgApy = 0.05`, `avgNetApy = 0.07`, one reward with
`supplyApr = 0.02`. -/
def mock_vault : VaultData :=
  { name := "USDS Vault"
    totalAssets := 1000000000000000000000
    totalAssetsUsd := 1000
    avgApy := 1 / 20
    avgNetApy := 7 / 100
    rewards := [⟨1 / 50, "SKY"⟩] }

/-- A clock whose local time differs from its UTC time (the host is five
hours west of UTC). -/
def mock_clock : Clock := ⟨⟨2026, 1, 1, 12, 0, 0⟩, ⟨2026, 1, 1, 17, 0, 0⟩⟩

/-- The same mock vault in the historical variant's shape, with empty
historical series. -/
def mock_vault_s : VaultDataS :=
  { name := "USDS Vault"
    totalAssets := 1000000000000000000000
    totalAssetsUsd := 1000
    avgApy := 1 / 20
    avgNetApy := 7 / 100
    rewards := [⟨1 / 50, "SKY"⟩]
    historicalState := ⟨[], [], [], [], [], []⟩ }

/-- A successful historical response whose `market` resolved to `null`. -/
def mock_resp_no_market : ApiResponseS := ⟨none, some ⟨some mock_vault_s, none⟩⟩

/-- A mock market state. -/
def mock_state : MarketState := ⟨9 / 10, 500000, 2 * 10 ^ 21, 3 / 100⟩

/-- A fully populated historical response. -/
def mock_resp_full : ApiResponseS :=
  ⟨none, some ⟨some mock_vault_s, some ⟨some mock_state, ⟨[], [], []⟩⟩⟩⟩

/-- The message the single-shot variant renders for `mock_resp_full`. -/
def mock_message_s : String :=
  match single_shot_message mock_resp_full mock_clock with
  | .ok m => m
  | .error e => e

/-- The long-running variant's `data` object with the mock vault and no
market object. -/
def mock_resp_b : RespData := ⟨some mock_vault, none⟩

/-- The message lines the long-running variant renders for
`mock_resp_b`. -/
def mock_parts_b : List String :=
  (send_update_parts (some mock_resp_b) mock_clock).getD []

/-! ### Helper lemmas -/

/-- With `decimals = 0`, extracting the time-series values is exactly
discarding the absent-value points. -/
theorem get_timeseries_values_zero (data : List Point) :
    get_timeseries_values data 0 = data.filterMap Point.y := by
  induction data with
  | nil => rfl
  | cons p rest ih =>
    cases h : p.y with
    | none => simp [get_timeseries_values, h, ih]
    | some y => simp [get_timeseries_values, h, ih]

/-- `String.append` concatenates the underlying character lists. -/
theorem string_data_append (s t : String) : (s ++ t).data = s.data ++ t.data := rfl

/-! ### C1 -/

/-- C1: `compute_delta` discards absent-value points, takes the last
remaining point as the oldest sample, and returns
`(current - oldest, (current - oldest) / oldest)`; it returns `none`
exactly when no valued points remain or the oldest value is `0` (so no
division fault can occur); on `[(t3,30),(t2,20),(t1,10)]` with current
value `40` it returns `(30, 3)`. -/
theorem c1_compute_delta_spec (current : ℚ) (data : List Point) :
    (compute_delta current data 0 = none ↔
      data.filterMap Point.y = [] ∨ (data.filterMap Point.y).getLast? = some 0)
    ∧ (∀ oldest : ℚ, (data.filterMap Point.y).getLast? = some oldest → oldest ≠ 0 →
        compute_delta current data 0 =
          some (current - oldest, (current - oldest) / oldest))
    ∧ compute_delta 40 [⟨3, some 30⟩, ⟨2, some 20⟩, ⟨1, some 10⟩] 0 = some (30, 3) := by
  refine ⟨?_, ?_, by with_unfolding_all rfl⟩
  · unfold compute_delta
    rw [get_timeseries_values_zero]
    cases h : (data.filterMap Point.y).getLast? with
    | none =>
      rw [List.getLast?_eq_none_iff] at h
      simp [h]
    | some o =>
      have hne : data.filterMap Point.y ≠ [] := by
        intro hnil
        rw [hnil] at h
        exact Option.noConfusion h
      by_cases ho : o = 0 <;> simp [h, hne, ho]
  · intro oldest h hne
    unfold compute_delta
    simp only [get_timeseries_values_zero]
    rw [h]
    simp [hne]

/-- C1 witness: the general clause applied at the concrete example. -/
theorem c1_witness :
    compute_delta 40 [⟨3, some 30⟩, ⟨2, some 20⟩, ⟨1, some 10⟩] 0 =
      some (40 - 10, (40 - 10) / 10) :=
  (c1_compute_delta_spec 40 [⟨3, some 30⟩, ⟨2, some 20⟩, ⟨1, some 10⟩]).2.1 10
    (by with_unfolding_all rfl) (by norm_num)

/-! ### C5 -/

/-- C5: `compute_average` discards absent-value points and returns the
arithmetic mean of the remaining values; on an empty or all-absent list it
returns `none` (and, being total, raises nothing). -/
theorem c5_compute_average_spec (data : List Point) :
    (compute_average data 0 = none ↔ data.filterMap Point.y = [])
    ∧ (data.filterMap Point.y ≠ [] →
        compute_average data 0 =
          some ((data.filterMap Point.y).sum / (data.filterMap Point.y).length)) := by
  unfold compute_average
  rw [get_timeseries_values_zero]
  by_cases h : data.filterMap Point.y = [] <;> simp [h]

/-- C5 witness: an all-absent list averages to `none`, a mixed list to the
mean of its present values. -/
theorem c5_witness :
    compute_average [⟨1, none⟩, ⟨2, none⟩] 0 = none ∧
    compute_average [⟨1, some 3⟩, ⟨2, none⟩, ⟨3, some 5⟩] 0 =
      some (([3, 5] : List ℚ).sum / ([3, 5] : List ℚ).length) :=
  ⟨(c5_compute_average_spec [⟨1, none⟩, ⟨2, none⟩]).1.mpr rfl,
   (c5_compute_average_spec [⟨1, some 3⟩, ⟨2, none⟩, ⟨3, some 5⟩]).2
     (by with_unfolding_all decide)⟩

/-! ### C3 -/

/-- C3: a response body with a top-level `errors` key makes the fetch step
fail in both variants — the long-running `fetch_data` returns `None` (the
cycle is skipped) and the single-shot variant raises — before any vault or
market field is read, even when a `data` object is present. -/
theorem c3_errors_take_precedence (r : ApiResponse) (rs : ApiResponseS)
    (clock : Clock) (h : r.errors.isSome = true) (hs : rs.errors.isSome = true) :
    fetch_data r = none ∧ single_shot_message rs clock = .error "GraphQL errors" := by
  constructor
  · simp [fetch_data, h]
  · simp [single_shot_message, hs]

/-- C3 witness: a response carrying both `errors` and a fully populated
`data` object still fails the fetch step in both variants. -/
theorem c3_witness :
    fetch_data ⟨some ["boom"], some ⟨some mock_vault, none⟩⟩ = none ∧
    single_shot_message ⟨some ["boom"], mock_resp_full.data⟩ mock_clock =
      .error "GraphQL errors" :=
  c3_errors_take_precedence ⟨some ["boom"], some ⟨some mock_vault, none⟩⟩
    ⟨some ["boom"], mock_resp_full.data⟩ mock_clock rfl rfl

/-! ### C9 -/

/-- C9: every historical window of `build_query` satisfies
`start < end` with `end = now` for all nine sub-queries; the "1h" windows
span two hours (`now - 7200`), the 12h and 24h windows start at
`now - 43200` and `now - 86400`. -/
theorem c9_build_query_windows (now : ℤ) :
    (∀ (lbl : String) (s e : ℤ), (lbl, s, e) ∈ build_query_windows now →
      s < e ∧ e = now)
    ∧ ("totalAssets_1h", now - 7200, now) ∈ build_query_windows now
    ∧ ("avgNetApy_1h", now - 7200, now) ∈ build_query_windows now
    ∧ ("borrowApy_1h", now - 7200, now) ∈ build_query_windows now
    ∧ ("totalAssets_12h", now - 43200, now) ∈ build_query_windows now
    ∧ ("avgNetApy_12h", now - 43200, now) ∈ build_query_windows now
    ∧ ("borrowApy_12h", now - 43200, now) ∈ build_query_windows now
    ∧ ("totalAssets_24h", now - 86400, now) ∈ build_query_windows now
    ∧ ("avgNetApy_24h", now - 86400, now) ∈ build_query_windows now
    ∧ ("borrowApy_24h", now - 86400, now) ∈ build_query_windows now
    ∧ (build_query_windows now).length = 9 := by
  refine ⟨?_, ?_, ?_, ?_, ?_, ?_, ?_, ?_, ?_, ?_, ?_⟩
  · intro lbl s e hw
    simp only [build_query_windows, List.mem_cons, List.not_mem_nil, or_false,
      Prod.mk.injEq] at hw
    rcases hw with ⟨h1, h2, h3⟩ | ⟨h1, h2, h3⟩ | ⟨h1, h2, h3⟩ | ⟨h1, h2, h3⟩ |
      ⟨h1, h2, h3⟩ | ⟨h1, h2, h3⟩ | ⟨h1, h2, h3⟩ | ⟨h1, h2, h3⟩ | ⟨h1, h2, h3⟩ <;>
      subst h2 <;> subst h3 <;> exact ⟨by omega, rfl⟩
  all_goals simp [build_query_windows]

/-- C9 witness: the all-windows clause applied to the "1h" totalAssets
window at a concrete `now`. -/
theorem c9_witness :
    (1699992800 : ℤ) < 1700000000 ∧ (1700000000 : ℤ) = 1700000000 :=
  (c9_build_query_windows 1700000000).1 "totalAssets_1h" 1699992800 1700000000
    (by with_unfolding_all decide)

/-! ### C10 -/

/-- `format_pct` always ends in `'%'`, so it never renders the
placeholder. -/
theorem format_pct_ne_na (v : ℚ) : format_pct v ≠ "N/A" := by
  intro h
  have hd : ((formatFixed false 2 (v * 100)).data ++ ['%']).reverse =
      (("N/A" : String).data).reverse := by
    rw [← string_data_append]
    exact congrArg (List.reverse ∘ String.data) h
  simp only [List.reverse_append] at hd
  exact absurd (List.head_eq_of_cons_eq hd) (by decide)

/-- C10: a historical-average line is rendered as `"N/A"` exactly when
`compute_average` returned `None` or a value equal to `0.0` — Python
truthiness makes a defined average of exactly zero indistinguishable from
the insufficient-data case. -/
theorem c10_zero_average_renders_na :
    (∀ avg : Option ℚ, render_avg avg = "N/A" ↔ avg = none ∨ avg = some 0)
    ∧ (∀ data : List Point,
        render_avg (compute_average data 0) = "N/A" ↔
          compute_average data 0 = none ∨ compute_average data 0 = some 0)
    ∧ render_avg (some 0) = "N/A" := by
  have key : ∀ avg : Option ℚ, render_avg avg = "N/A" ↔ avg = none ∨ avg = some 0 := by
    intro avg
    cases avg with
    | none => simp [render_avg]
    | some v =>
      by_cases hv : v = 0 <;> simp [render_avg, hv, format_pct_ne_na]
  exact ⟨key, fun data => key _, (key (some 0)).mpr (Or.inr rfl)⟩

/-- C10 witness: the equivalence applied at a defined zero average and at
a defined non-zero average. -/
theorem c10_witness :
    render_avg (some 0) = "N/A" ∧ ¬render_avg (some (1 / 20)) = "N/A" :=
  ⟨(c10_zero_average_renders_na.1 (some 0)).mpr (Or.inr rfl),
   fun h => by
     rcases (c10_zero_average_renders_na.1 (some (1 / 20))).mp h with h' | h'
     · exact Option.noConfusion h'
     · rw [Option.some.injEq] at h'
       norm_num at h'⟩

/-! ### C6 -/

/-- The digit characters. -/
def digitChars : List Char := ['0', '1', '2', '3', '4', '5', '6', '7', '8', '9']

theorem digitChar_mem_digitChars (d : Nat) (h : d < 10) :
    digitChar d ∈ digitChars := by
  interval_cases d <;> decide

theorem mem_natDigitsRevAux (fuel : Nat) :
    ∀ n c, c ∈ natDigitsRevAux fuel n → c ∈ digitChars := by
  induction fuel with
  | zero =>
    intro n c hc
    simp [natDigitsRevAux] at hc
  | succ fuel ih =>
    intro n c hc
    rw [natDigitsRevAux] at hc
    by_cases h : n < 10
    · rw [if_pos h] at hc
      rw [List.mem_singleton] at hc
      subst hc
      exact digitChar_mem_digitChars n h
    · rw [if_neg h] at hc
      rcases List.mem_cons.mp hc with hc | hc
      · subst hc
        exact digitChar_mem_digitChars _ (Nat.mod_lt _ (by omega))
      · exact ih _ _ hc

theorem mem_group3Rev : ∀ l : List Char, ∀ c : Char, c ∈ group3Rev l → c ∈ l ∨ c = ','
  | [], c, hc => Or.inl hc
  | [a], c, hc => Or.inl hc
  | [a, b], c, hc => Or.inl hc
  | [a, b, d], c, hc => Or.inl hc
  | a :: b :: d :: e :: rest, c, hc => by
    have heq : group3Rev (a :: b :: d :: e :: rest) =
        a :: b :: d :: ',' :: group3Rev (e :: rest) := rfl
    rw [heq] at hc
    simp only [List.mem_cons] at hc
    rcases hc with h | h | h | h | h
    · exact Or.inl (by simp [h])
    · exact Or.inl (by simp [h])
    · exact Or.inl (by simp [h])
    · exact Or.inr h
    · rcases mem_group3Rev (e :: rest) c h with h' | h'
      · exact Or.inl (List.mem_cons_of_mem _ (List.mem_cons_of_mem _
          (List.mem_cons_of_mem _ h')))
      · exact Or.inr h'

/-- Every character of a zero-fraction-digit `formatFixed` rendering is a
sign, a thousands separator or a digit — in particular no decimal
point. -/
theorem formatFixed0_chars (grouped : Bool) (q : ℚ) (c : Char)
    (hc : c ∈ (formatFixed grouped 0 q).data) :
    c = '-' ∨ c = ',' ∨ c ∈ digitChars := by
  cases grouped with
  | true =>
    simp [formatFixed] at hc
    rcases hc with ⟨_, h⟩ | h
    · exact Or.inl h
    · rcases mem_group3Rev _ _ h with h' | h'
      · exact Or.inr (Or.inr (mem_natDigitsRevAux _ _ _ h'))
      · exact Or.inr (Or.inl h')
  | false =>
    simp [formatFixed, natDigits] at hc
    rcases hc with ⟨_, h⟩ | h
    · exact Or.inl h
    · exact Or.inr (Or.inr (mem_natDigitsRevAux _ _ _ h))

/-- C6: the concrete formatting examples of the spec, and in general
`format_delta` carries an explicit leading `'+'` exactly for non-negative
inputs and renders no fraction digits (its output contains no decimal
point). -/
theorem c6_format_helpers :
    format_pct (1234 / 10000) = "12.34%"
    ∧ format_number (1234567891 / 1000) = "1,234,567.89"
    ∧ format_delta (-(11 / 2)) = "-6"
    ∧ format_delta 0 = "+0"
    ∧ format_delta (123456 / 10) = "+12,346"
    ∧ (∀ q : ℚ, (format_delta q).data.head? = some '+' ↔ 0 ≤ q)
    ∧ (∀ q : ℚ, '.' ∉ (format_delta q).data) := by
  refine ⟨by with_unfolding_all rfl, by with_unfolding_all rfl,
    by with_unfolding_all rfl, by with_unfolding_all rfl,
    by with_unfolding_all rfl, ?_, ?_⟩
  · intro q
    by_cases h : 0 ≤ q
    · simp only [format_delta, if_pos h, string_data_append]
      simp [h]
    · have hq : q < 0 := lt_of_not_ge h
      simp only [format_delta, if_neg h, string_data_append]
      simp only [formatFixed, if_pos hq]
      simp [h]
  · intro q hdot
    rw [format_delta, string_data_append] at hdot
    rcases List.mem_append.mp hdot with hc | hc
    · rcases le_or_lt 0 q with h | h
      · rw [if_pos h] at hc
        exact absurd (List.mem_singleton.mp hc) (by decide)
      · rw [if_neg (not_le.mpr h)] at hc
        exact absurd hc (List.not_mem_nil _)
    · rcases formatFixed0_chars true q '.' hc with h | h | h <;> revert h <;> decide

/-- C6 witness: the sign clause applied at a concrete non-negative
input. -/
theorem c6_witness : (format_delta 3).data.head? = some '+' :=
  (c6_format_helpers.2.2.2.2.2.1 3).mpr (by norm_num)

/-! ### C4 -/

/-- C4 counterexample: on a successful response whose `vault` is present
but whose `market` is absent, the single-shot variant does *not* render a
message — `market["state"]` on `None` raises before the message is
built. -/
theorem c4_single_shot_crashes_without_market :
    single_shot_message mock_resp_no_market mock_clock =
      .error "TypeError: market is None" := by
  with_unfolding_all rfl

set_option maxRecDepth 40000 in
/-- C4 (amended): in the long-running variant, a response with the vault
present and the market absent still renders and delivers a message whose
market section is omitted while the vault lines are kept; on the mock
input the rendered message contains the four vault lines and no market
section.  (The single-shot variant instead fails on a missing market.) -/
theorem c4_bot_omits_market_section :
    (∀ (d : RespData) (v : VaultData) (clock : Clock),
        d.vault = some v → d.market = none →
        send_update_parts (some d) clock =
          some (vault_parts v ++ ["", "_" ++ strftimeFull clock.localTime ++ "_"]))
    ∧ contains_str "Total Deposits: 1,000.00 USDS"
        (strip_markup (String.intercalate "\n" mock_parts_b)) = true
    ∧ contains_str "Native APY: 5.00%"
        (strip_markup (String.intercalate "\n" mock_parts_b)) = true
    ∧ contains_str "Rewards APY: 2.00%"
        (strip_markup (String.intercalate "\n" mock_parts_b)) = true
    ∧ contains_str "Total APY: 7.00%"
        (strip_markup (String.intercalate "\n" mock_parts_b)) = true
    ∧ contains_str "stUSDS/USDS Market"
        (String.intercalate "\n" mock_parts_b) = false := by
  refine ⟨?_, by with_unfolding_all rfl, by with_unfolding_all rfl,
    by with_unfolding_all rfl, by with_unfolding_all rfl, by with_unfolding_all rfl⟩
  intro d v clock h1 h2
  simp [send_update_parts, h1, h2, market_parts]

/-- C4 witness: the general clause applied to the mock response. -/
theorem c4_witness :
    send_update_parts (some mock_resp_b) mock_clock =
      some (vault_parts mock_vault ++
        ["", "_" ++ strftimeFull mock_clock.localTime ++ "_"]) :=
  c4_bot_omits_market_section.1 mock_resp_b mock_vault mock_clock rfl rfl

/-! ### C7 -/

/-- C7 counterexample: with the bot token set but the destination channel
id and the polling interval both absent from the environment, the
long-running variant starts up successfully — it falls back to the
defaults `"@machilassab"` and 60 seconds instead of failing fast. -/
theorem c7_defaults_not_fatal :
    monitor_init ⟨some "token123", none, none⟩ =
      .ok ⟨"token123", "@machilassab", 60⟩ := by
  with_unfolding_all rfl

/-- C7 (amended): only the bot token's absence is fatal at startup of the
long-running variant — a missing chat id defaults to `"@machilassab"` and
a missing interval to 60 seconds; in the single-shot variant the absence
of either the bot token or the chat id is fatal (an interval is not
read at all). -/
theorem c7_env_requirements :
    (∀ env : Env, env.telegram_bot_token = none →
        ∃ e, monitor_init env = .error e)
    ∧ (∀ env : Env,
        truthyStr env.telegram_bot_token = false ∨
          truthyStr env.telegram_chat_id = false →
        single_shot_config env =
          .error "TELEGRAM_BOT_TOKEN and TELEGRAM_CHAT_ID must be set")
    ∧ (∀ t : String, truthyStr (some t) = true →
        monitor_init ⟨some t, none, none⟩ = .ok ⟨t, "@machilassab", 60⟩) := by
  refine ⟨?_, ?_, ?_⟩
  · intro env h
    unfold monitor_init
    cases hi : (env.monitoring_interval.getD "60").toNat? with
    | none => exact ⟨_, rfl⟩
    | some k =>
      refine ⟨"TELEGRAM_BOT_TOKEN environment variable is required", ?_⟩
      rw [h]
      rfl
  · intro env h
    unfold single_shot_config
    rcases h with h | h <;> rw [h] <;> simp
  · intro t h
    have h60 : ("60" : String).toNat? = some 60 := by with_unfolding_all rfl
    simp [monitor_init, h, h60]

/-- C7 witness: the three clauses at concrete environments. -/
theorem c7_witness :
    (∃ e, monitor_init ⟨none, some "@chan", some "60"⟩ = .error e)
    ∧ single_shot_config ⟨none, some "@chan", none⟩ =
        .error "TELEGRAM_BOT_TOKEN and TELEGRAM_CHAT_ID must be set"
    ∧ monitor_init ⟨some "tok", none, none⟩ = .ok ⟨"tok", "@machilassab", 60⟩ :=
  ⟨c7_env_requirements.1 ⟨none, some "@chan", some "60"⟩ rfl,
   c7_env_requirements.2.1 ⟨none, some "@chan", none⟩ (Or.inl rfl),
   c7_env_requirements.2.2 "tok" rfl⟩

/-! ### C8 -/

/-- C8 counterexample: with the host clock five hours west of UTC, the
long-running variant's rendered message ends with the italicised *local*
time, not the UTC time in either rendering — `src/bot.py` uses
`datetime.now()`, not `datetime.utcnow()`. -/
theorem c8_bot_timestamp_not_utc :
    mock_parts_b.getLast? = some "_2026-01-01 12:00:00_"
    ∧ "_2026-01-01 12:00:00_" ≠ "_" ++ strftimeFull mock_clock.utcTime ++ "_"
    ∧ "_2026-01-01 12:00:00_" ≠ "_" ++ strftimeShort mock_clock.utcTime ++ "_" := by
  refine ⟨by with_unfolding_all rfl, by decide, by decide⟩

/-- C8 (amended): every message of the single-shot variant ends with the
trailing `_YYYY-MM-DD HH:MM UTC_` timestamp rendered from
`datetime.utcnow()`; every message of the long-running variant ends with
a trailing `_YYYY-MM-DD HH:MM:SS_` timestamp rendered from the host-local
`datetime.now()` (which coincides with UTC only when the host timezone is
UTC). -/
theorem c8_trailing_timestamps :
    (∀ (rs : ApiResponseS) (clock : Clock) (msg : String),
        single_shot_message rs clock = .ok msg →
        ∃ p, msg = p ++ ("_" ++ strftimeShort clock.utcTime ++ "_"))
    ∧ (∀ (d : RespData) (clock : Clock) (parts : List String),
        send_update_parts (some d) clock = some parts →
        parts.getLast? = some ("_" ++ strftimeFull clock.localTime ++ "_")) := by
  constructor
  · intro rs clock msg h
    unfold single_shot_message at h
    split at h
    · exact absurd h (by simp)
    · split at h
      · exact absurd h (by simp)
      · split at h
        · exact absurd h (by simp)
        · split at h
          · exact absurd h (by simp)
          · split at h
            · exact absurd h (by simp)
            · rw [Except.ok.injEq] at h
              exact ⟨_, h.symm⟩
  · intro d clock parts h
    unfold send_update_parts at h
    split at h
    · exact absurd h (by simp)
    · split at h
      · exact absurd h (by simp)
      rw [Option.some.injEq] at h
      subst h
      simp [List.getLast?_append]

/-- C8 witness: both clauses at the fully populated mocks. -/
theorem c8_witness :
    (∃ p, mock_message_s = p ++ ("_" ++ strftimeShort mock_clock.utcTime ++ "_"))
    ∧ mock_parts_b.getLast? =
        some ("_" ++ strftimeFull mock_clock.localTime ++ "_") :=
  ⟨c8_trailing_timestamps.1 mock_resp_full mock_clock mock_message_s
      (by with_unfolding_all rfl),
   c8_trailing_timestamps.2 mock_resp_b mock_clock mock_parts_b
      (by with_unfolding_all rfl)⟩

/-! ### C2 -/

/-- C2: the fixed-point conversion of the code parses the 18-decimal
string with arbitrary-precision `int(...)` but then divides with Python
float division, rounding to 53 significant bits.  At the 64-bit input
`9223372036854775808 + 1000 = 2^63 + 1000`, reconversion through
multiplication by `10^18` and truncation misses the input by 1000 (float
multiplication) respectively 341 (exact multiplication) — far beyond
integer rounding at the lowest digit — while the spec-intended
arbitrary-precision conversion reproduces the input exactly. -/
theorem c2_fixed_point_precision_loss :
    round_trip_float 9223372036854776808 = 9223372036854775808
    ∧ round_trip_exact 9223372036854776808 = 9223372036854776467
    ∧ pyTrunc (exact_convert 9223372036854776808 * 10 ^ 18) = 9223372036854776808
    ∧ (9223372036854776808 - 9223372036854775808 : ℤ) = 1000
    ∧ (9223372036854776808 - 9223372036854776467 : ℤ) = 341 := by
  refine ⟨by with_unfolding_all rfl, by with_unfolding_all rfl,
    by with_unfolding_all rfl, by norm_num, by norm_num⟩

end MonitoringBot
